import Mathlib

/-!
Verification of the Python caching layer of `mutagen_rs`
(`src/python/mutagen_rs/__init__.py`) against its specification.

The layer wraps a native core (per-format constructors `MP3`, `FLAC`,
`OggVorbis`, `MP4`, the dispatcher `file_open`, and `batch_open`). The native
core is not part of the Python sources, so it is modelled abstractly from the
spec (see `NativeFile` and `NativeParsers`); the Python module's own logic
(the per-path cache `_cache`, the last-batch memo `_last_batch`, the wrapper
class `_CachedFile`, and the functions `MP3`, `FLAC`, `OggVorbis`, `MP4`,
`File`, `batch_open`, `clear_cache`, `_make_cached`, `_CachedFile.save`) is
embedded faithfully below.

Python dictionaries are embedded as association lists with unique keys and
insertion order (`alistGet`, `dictInsert`, `alistRemove` mirror `d.get`,
`d[k] = v`, `d.pop`). Python object identity of the list passed to
`batch_open` (the `filenames is _last_batch[0]` test) is embedded by giving
every list object a numeric identity and keeping a store `lists : id ↦
current contents` in the module state; mutating a list in place is the
caller-side operation `setList`.
-/

namespace MutagenRs

/-- Errors of the native core, named by their Python class
(`HeaderNotFoundError`, `FLACNoHeaderError`, ...); modelled as strings. -/
abbrev Err := String

/-- Tag values; modelled as opaque strings. -/
abbrev Value := String

instance {ε α : Type} [DecidableEq ε] [DecidableEq α] : DecidableEq (Except ε α) :=
fun a b =>
  match a, b with
  | Except.ok x, Except.ok y =>
    if h : x = y then Decidable.isTrue (congrArg Except.ok h)
    else Decidable.isFalse (fun hc => h (Except.ok.inj hc))
  | Except.error x, Except.error y =>
    if h : x = y then Decidable.isTrue (congrArg Except.error h)
    else Decidable.isFalse (fun hc => h (Except.error.inj hc))
  | Except.ok _, Except.error _ => Decidable.isFalse (fun hc => Except.noConfusion hc)
  | Except.error _, Except.ok _ => Decidable.isFalse (fun hc => Except.noConfusion hc)

/-- Modelled from the spec: a handle returned by the native core.
Per spec section 6 it exposes `info`, `keys()` (the key enumeration, in the
order the underlying container presents them) and `handle[key]` lookup.
The Python layer's `_make_cached` guards every `native[k]` access with
`try ... except Exception: pass`, so lookup is embedded as fallible. -/
structure NativeFile where
  info : String
  tagKeys : List String
  table : List (String × Except Err Value)
deriving Repr, DecidableEq

/-- Lookup `native[k]`: the first table entry for `k`, or a KeyError. -/
def NativeFile.getItem (n : NativeFile) (k : String) : Except Err Value :=
  match n.table.find? (fun p => p.1 == k) with
  | some p => p.2
  | none => Except.error "KeyError"

/-- Python dict lookup `d.get(k)` on an association list. -/
def alistGet {κ α : Type} [DecidableEq κ] (d : List (κ × α)) (k : κ) : Option α :=
  match d with
  | [] => none
  | p :: rest => if p.1 = k then some p.2 else alistGet rest k

/-- Python dict assignment `d[k] = v`: update in place if the key is
present (keeping its position), else append at the end. -/
def dictInsert {κ α : Type} [DecidableEq κ] (d : List (κ × α)) (k : κ) (v : α) :
    List (κ × α) :=
  match d with
  | [] => [(k, v)]
  | p :: rest => if p.1 = k then (k, v) :: rest else p :: dictInsert rest k v

/-- Python dict `d.pop(k, None)`: drop the entry for `k` if present. -/
def alistRemove {κ α : Type} [DecidableEq κ] (d : List (κ × α)) (k : κ) :
    List (κ × α) :=
  match d with
  | [] => []
  | p :: rest => if p.1 = k then rest else p :: alistRemove rest k

/-- The `_CachedFile` wrapper: a dict subclass holding the native handle,
its `info`, the `filename`, and the tag entries copied into the dict
(`entries`, insertion ordered). -/
structure CachedFile where
  native : NativeFile
  info : String
  filename : String
  entries : List (String × Value)
deriving Repr, DecidableEq

/-- One step of the `for k in native.keys()` loop of `_make_cached`:
`try: w[k] = native[k] except Exception: pass`. -/
def cacheStep (native : NativeFile) (d : List (String × Value)) (k : String) :
    List (String × Value) :=
  match native.getItem k with
  | Except.ok v => dictInsert d k v
  | Except.error _ => d

/-- `_make_cached(native, filename)`: wrap a native file object in a
`_CachedFile`, copying `native.info`, the filename, and every key of
`native.keys()` whose lookup succeeds into the dict entries. -/
def _make_cached (native : NativeFile) (filename : String) : CachedFile :=
  { native := native
    info := native.info
    filename := filename
    entries := native.tagKeys.foldl (cacheStep native) [] }

/-- Modelled from the spec: the native core's per-format constructors and the
dispatcher `file_open(path, easy)` (not present under src/). Spec section 6:
each either returns a handle or raises exactly one typed error; spec
section 5: decoders are pure functions of the file's bytes, so each is a
function of the path (for fixed on-disk contents). A change of the on-disk
contents, e.g. by `save`, is modelled by using a different `NativeParsers`
value for the calls that follow it. -/
structure NativeParsers where
  rustMP3 : String → Except Err NativeFile
  rustFLAC : String → Except Err NativeFile
  rustOggVorbis : String → Except Err NativeFile
  rustMP4 : String → Except Err NativeFile
  rust_file_open : String → Bool → Except Err NativeFile

/-- Modelled from the spec: the native `batch_open` (not present under src/).
Spec section 6: given a list of paths, produce one result per path in input
order, where each result is either `(path, handle)` or `(path, error)`. -/
def NativeParsers.rust_batch_open (P : NativeParsers) (paths : List String) :
    List (String × Except Err NativeFile) :=
  paths.map (fun p => (p, P.rust_file_open p false))

/-- The module-level mutable state of `mutagen_rs`'s Python layer:
`_cache` (filename ↦ wrapper), the two cells of `_last_batch`
(`_last_batch[0]` holds the identity of the last list object, `_last_batch[1]`
the memoized result), and the store of list objects owned by the caller
(`lists`: object identity ↦ current contents), which models Python object
identity and in-place mutation for the `filenames is _last_batch[0]` test. -/
structure PyState where
  cache : List (String × CachedFile)
  lastBatchArg : Option Nat
  lastBatchResult : Option (List (String × Except Err NativeFile))
  lists : List (Nat × List String)
deriving Repr, DecidableEq

/-- Contents currently stored in the list object with identity `i`. -/
def listContents (lists : List (Nat × List String)) (i : Nat) : List String :=
  match alistGet lists i with
  | some paths => paths
  | none => []

/-- Caller-side in-place mutation of a list object (`lst[:] = paths`).
Not part of the module under verification: it models the Python runtime's
capability referred to by the claims (reusing a previously passed list object
whose contents have changed). -/
def setList (s : PyState) (i : Nat) (paths : List String) : PyState :=
  { s with lists := dictInsert s.lists i paths }

/-- The shared body of the five wrapper constructors: check `_cache`, else
call the native constructor, wrap it, store it in `_cache`, return it. An
exception from the native constructor propagates before the cache is
written. -/
def openVia (parse : String → Except Err NativeFile) (s : PyState)
    (filename : String) : PyState × Except Err CachedFile :=
  match alistGet s.cache filename with
  | some w => (s, Except.ok w)
  | none =>
    match parse filename with
    | Except.error e => (s, Except.error e)
    | Except.ok native =>
      let w := _make_cached native filename
      ({ s with cache := dictInsert s.cache filename w }, Except.ok w)

/-- `mutagen_rs.MP3(filename)`. -/
def MP3 (P : NativeParsers) (s : PyState) (filename : String) :
    PyState × Except Err CachedFile :=
  openVia P.rustMP3 s filename

/-- `mutagen_rs.FLAC(filename)`. -/
def FLAC (P : NativeParsers) (s : PyState) (filename : String) :
    PyState × Except Err CachedFile :=
  openVia P.rustFLAC s filename

/-- `mutagen_rs.OggVorbis(filename)`. -/
def OggVorbis (P : NativeParsers) (s : PyState) (filename : String) :
    PyState × Except Err CachedFile :=
  openVia P.rustOggVorbis s filename

/-- `mutagen_rs.MP4(filename)`. -/
def MP4 (P : NativeParsers) (s : PyState) (filename : String) :
    PyState × Except Err CachedFile :=
  openVia P.rustMP4 s filename

/-- `mutagen_rs.File(filename, easy)`: the cache check comes first and does
not consult `easy`; only a cache miss reaches `_rust_file_open(filename,
easy=easy)`. -/
def File (P : NativeParsers) (s : PyState) (filename : String) (easy : Bool) :
    PyState × Except Err CachedFile :=
  openVia (fun f => P.rust_file_open f easy) s filename

/-- The non-memoized path of `batch_open`: call the native batch on the
list's current contents, store the list object and the result in
`_last_batch`, and return the result. -/
def batchFresh (P : NativeParsers) (s : PyState) (filenames : Nat) :
    PyState × List (String × Except Err NativeFile) :=
  let result := P.rust_batch_open (listContents s.lists filenames)
  ({ s with lastBatchArg := some filenames, lastBatchResult := some result },
    result)

/-- `mutagen_rs.batch_open(filenames)`, where `filenames` is the identity of
a list object in `s.lists`: if the same object as `_last_batch[0]` and
`_last_batch[1] is not None`, return the memoized result; else call the
native batch, memoize, return. -/
def batch_open (P : NativeParsers) (s : PyState) (filenames : Nat) :
    PyState × List (String × Except Err NativeFile) :=
  match s.lastBatchArg, s.lastBatchResult with
  | some argId, some r =>
    if argId = filenames then (s, r) else batchFresh P s filenames
  | _, _ => batchFresh P s filenames

/-- `_CachedFile.save(...)` on wrapper `w`, success path: the native save
succeeds (its effect is on disk, outside this state), then
`_cache.pop(self.filename, None)`. Nothing else in the module state is
touched. -/
def save (s : PyState) (w : CachedFile) : PyState :=
  { s with cache := alistRemove s.cache w.filename }

/-- `mutagen_rs.clear_cache()`: `_cache.clear()` and both `_last_batch`
cells set to `None`. -/
def clear_cache (s : PyState) : PyState :=
  { s with cache := [], lastBatchArg := none, lastBatchResult := none }

/-! ### Characterization helpers -/

/-- The result a wrapper constructor produces when the cache misses and the
native parser runs: wrap a successful parse, propagate an error. -/
def freshResult (parse : String → Except Err NativeFile) (f : String) :
    Except Err CachedFile :=
  match parse f with
  | Except.ok n => Except.ok (_make_cached n f)
  | Except.error e => Except.error e

/-- One step of the key-order characterization of `_make_cached`: record `k`
at its first occurrence when its native lookup succeeds. -/
def keyStep (native : NativeFile) (a : List String) (k : String) : List String :=
  match native.getItem k with
  | Except.ok _ => if k ∈ a then a else a ++ [k]
  | Except.error _ => a

/-- Keys of `native.keys()` in the order first observed, restricted to keys
whose native lookup succeeds: the wrapper's key iteration order. -/
def seenKeys (native : NativeFile) : List String :=
  native.tagKeys.foldl (keyStep native) []

/-! ### Concrete fixtures

Small concrete native handles, parsers and states used by the witnesses and
counterexamples below. -/

/-- Example native handle produced by the MP3 parser for "a.mp3". -/
def exNative : NativeFile :=
  { info := "mp3info", tagKeys := ["TIT2"], table := [("TIT2", Except.ok "Song")] }

/-- Example native handle produced by the dispatcher for "a.mp3" with
easy mode on: normalized keys. -/
def exEasyNative : NativeFile :=
  { info := "mp3info", tagKeys := ["title"], table := [("title", Except.ok "Song")] }

/-- Example native handle produced by the FLAC parser for "b.flac". -/
def exFlacNative : NativeFile :=
  { info := "flacinfo", tagKeys := ["ARTIST"], table := [("ARTIST", Except.ok "Band")] }

/-- Example native handle for "a.mp3" after its bytes changed on disk. -/
def exNative2 : NativeFile :=
  { info := "newinfo", tagKeys := [], table := [] }

/-- Example parsers for a fixed disk state holding "a.mp3" and "b.flac". -/
def exParsers : NativeParsers :=
  { rustMP3 := fun f => if f = "a.mp3" then Except.ok exNative
      else Except.error "HeaderNotFoundError"
    rustFLAC := fun f => if f = "b.flac" then Except.ok exFlacNative
      else Except.error "FLACNoHeaderError"
    rustOggVorbis := fun _ => Except.error "OggError"
    rustMP4 := fun _ => Except.error "MP4Error"
    rust_file_open := fun f easy =>
      if f = "a.mp3" then
        (if easy then Except.ok exEasyNative else Except.ok exNative)
      else Except.error "MutagenError" }

/-- Example parsers for the disk state after "a.mp3" was rewritten. -/
def exParsers2 : NativeParsers :=
  { rustMP3 := fun f => if f = "a.mp3" then Except.ok exNative2
      else Except.error "HeaderNotFoundError"
    rustFLAC := fun _ => Except.error "FLACNoHeaderError"
    rustOggVorbis := fun _ => Except.error "OggError"
    rustMP4 := fun _ => Except.error "MP4Error"
    rust_file_open := fun f _ =>
      if f = "a.mp3" then Except.ok exNative2 else Except.error "MutagenError" }

/-- Fresh module state; the caller's list object number 0 currently holds
the single path "a.mp3". -/
def exInit : PyState :=
  { cache := [], lastBatchArg := none, lastBatchResult := none,
    lists := [(0, ["a.mp3"])] }

/-- Observable summary of a batch result: each entry's info string (or its
error string). -/
def resultInfos (r : List (String × Except Err NativeFile)) : List String :=
  r.map (fun p =>
    match p.2 with
    | Except.ok n => n.info
    | Except.error e => e)

/-- Observable key list of an open result: the wrapper's dict keys in
iteration order (empty for an error). -/
def keysOfResult (r : Except Err CachedFile) : List String :=
  match r with
  | Except.ok w => w.entries.map Prod.fst
  | Except.error _ => []

/-- Native handle whose keys() reports "TIT2" but whose lookup of "TIT2"
raises. -/
def exBadNative : NativeFile :=
  { info := "bad", tagKeys := ["TIT2"], table := [("TIT2", Except.error "boom")] }

/-- Native handle with two reported keys of which the first one's lookup
raises. -/
def exBadNative2 : NativeFile :=
  { info := "bad2", tagKeys := ["AAA", "BBB"],
    table := [("AAA", Except.error "boom"), ("BBB", Except.ok "v")] }

/-- State after FLAC("b.flac"): the FLAC-produced wrapper is cached. -/
def exSFlac : PyState := (FLAC exParsers exInit "b.flac").1

/-- The wrapper cached for "b.flac" (produced by the FLAC constructor). -/
def exWFlac : CachedFile := _make_cached exFlacNative "b.flac"

/-- State after File("a.mp3", easy=False): the non-easy wrapper is cached. -/
def exSFile : PyState := (File exParsers exInit "a.mp3" false).1

/-- The wrapper cached for "a.mp3" by the MP3 constructor. -/
def exW1 : CachedFile := _make_cached exNative "a.mp3"

/-- State after MP3("a.mp3"). -/
def exS1 : PyState := (MP3 exParsers exInit "a.mp3").1

/-- State after then calling batch_open on list object 0 (= ["a.mp3"]):
the result is memoized in `_last_batch`. -/
def exS2 : PyState := (batch_open exParsers exS1 0).1

/-- State after then calling save on the cached wrapper for "a.mp3". -/
def exS3 : PyState := save exS2 exW1

/-- State after batch_open on list object 0 from the fresh state. -/
def exSBatch : PyState := (batch_open exParsers exInit 0).1

/-- State after the caller then mutates list object 0 in place from
["a.mp3"] to ["b.flac"]. -/
def exSMut : PyState := setList exSBatch 0 ["b.flac"]

/-! ### Association-list lemmas (Python dict semantics) -/

theorem alistGet_dictInsert_self {κ α : Type} [DecidableEq κ]
    (d : List (κ × α)) (k : κ) (v : α) :
    alistGet (dictInsert d k v) k = some v := by
  induction d with
  | nil => simp [dictInsert, alistGet]
  | cons p rest ih =>
    by_cases h : p.1 = k
    · simp [dictInsert, alistGet, h]
    · simp [dictInsert, alistGet, h, ih]

theorem alistGet_dictInsert_ne {κ α : Type} [DecidableEq κ]
    (d : List (κ × α)) (k j : κ) (v : α) (h : j ≠ k) :
    alistGet (dictInsert d k v) j = alistGet d j := by
  have h2 : ¬ k = j := fun hh => h hh.symm
  induction d with
  | nil => simp [dictInsert, alistGet, h2]
  | cons p rest ih =>
    by_cases hp : p.1 = k
    · subst hp
      simp [dictInsert, alistGet, h2]
    · simp [dictInsert, alistGet, hp, ih]

theorem alistGet_eq_none {κ α : Type} [DecidableEq κ]
    (d : List (κ × α)) (k : κ) (h : k ∉ d.map Prod.fst) :
    alistGet d k = none := by
  induction d with
  | nil => rfl
  | cons p rest ih =>
    simp only [List.map_cons, List.mem_cons] at h
    push_neg at h
    have h2 : ¬ p.1 = k := fun hh => h.1 hh.symm
    simp [alistGet, h2, ih h.2]

theorem alistGet_alistRemove_self {κ α : Type} [DecidableEq κ]
    (d : List (κ × α)) (k : κ) (h : (d.map Prod.fst).Nodup) :
    alistGet (alistRemove d k) k = none := by
  induction d with
  | nil => rfl
  | cons p rest ih =>
    simp only [List.map_cons, List.nodup_cons] at h
    by_cases hp : p.1 = k
    · subst hp
      simp [alistRemove, alistGet_eq_none rest p.1 h.1]
    · simp [alistRemove, alistGet, hp, ih h.2]

theorem alistGet_alistRemove_ne {κ α : Type} [DecidableEq κ]
    (d : List (κ × α)) (k j : κ) (h : j ≠ k) :
    alistGet (alistRemove d k) j = alistGet d j := by
  induction d with
  | nil => rfl
  | cons p rest ih =>
    by_cases hp : p.1 = k
    · subst hp
      have h2 : ¬ p.1 = j := fun hh => h hh.symm
      simp [alistRemove, alistGet, h2]
    · simp [alistRemove, alistGet, hp, ih]

theorem dictInsert_keys {κ α : Type} [DecidableEq κ]
    (d : List (κ × α)) (k : κ) (v : α) :
    (dictInsert d k v).map Prod.fst =
      if k ∈ d.map Prod.fst then d.map Prod.fst
      else d.map Prod.fst ++ [k] := by
  induction d with
  | nil => simp [dictInsert]
  | cons p rest ih =>
    by_cases hp : p.1 = k
    · subst hp
      simp [dictInsert]
    · have h2 : ¬ k = p.1 := fun hh => hp hh.symm
      by_cases hm : k ∈ rest.map Prod.fst
      · simp [dictInsert, hp, ih, hm, h2]
      · simp [dictInsert, hp, ih, hm, h2]

theorem dictInsert_keys_nodup {κ α : Type} [DecidableEq κ]
    (d : List (κ × α)) (k : κ) (v : α) (h : (d.map Prod.fst).Nodup) :
    ((dictInsert d k v).map Prod.fst).Nodup := by
  rw [dictInsert_keys]
  by_cases hm : k ∈ d.map Prod.fst
  · simpa [hm] using h
  · simp [hm, List.nodup_append, h]

/-! ### Behaviour of the shared constructor body -/

theorem openVia_hit (parse : String → Except Err NativeFile) (s : PyState)
    (f : String) (w : CachedFile) (h : alistGet s.cache f = some w) :
    openVia parse s f = (s, Except.ok w) := by
  unfold openVia
  rw [h]

theorem openVia_miss_ok (parse : String → Except Err NativeFile) (s : PyState)
    (f : String) (n : NativeFile) (h : alistGet s.cache f = none)
    (hp : parse f = Except.ok n) :
    openVia parse s f =
      ({ s with cache := dictInsert s.cache f (_make_cached n f) },
        Except.ok (_make_cached n f)) := by
  unfold openVia
  rw [h, hp]

theorem openVia_miss_error (parse : String → Except Err NativeFile) (s : PyState)
    (f : String) (e : Err) (h : alistGet s.cache f = none)
    (hp : parse f = Except.error e) :
    openVia parse s f = (s, Except.error e) := by
  unfold openVia
  rw [h, hp]

theorem openVia_idem (parse : String → Except Err NativeFile) (s : PyState)
    (f : String) :
    openVia parse (openVia parse s f).1 f = openVia parse s f := by
  cases h : alistGet s.cache f with
  | some w =>
    rw [openVia_hit parse s f w h]
    exact openVia_hit parse s f w h
  | none =>
    cases hp : parse f with
    | error e =>
      rw [openVia_miss_error parse s f e h hp]
      exact openVia_miss_error parse s f e h hp
    | ok n =>
      rw [openVia_miss_ok parse s f n h hp]
      exact openVia_hit parse _ f _ (alistGet_dictInsert_self s.cache f _)

/-! ### Key-order characterization of `_make_cached` -/

theorem cacheStep_keys (native : NativeFile) (d : List (String × Value))
    (k : String) :
    (cacheStep native d k).map Prod.fst = keyStep native (d.map Prod.fst) k := by
  unfold cacheStep keyStep
  cases native.getItem k with
  | ok v => exact dictInsert_keys d k v
  | error e => rfl

theorem foldl_cacheStep_keys (native : NativeFile) (ks : List String)
    (d : List (String × Value)) :
    ((ks.foldl (cacheStep native) d).map Prod.fst) =
      ks.foldl (keyStep native) (d.map Prod.fst) := by
  induction ks generalizing d with
  | nil => rfl
  | cons k ks ih => simp [List.foldl_cons, ih, cacheStep_keys]

theorem make_cached_keys (native : NativeFile) (f : String) :
    (_make_cached native f).entries.map Prod.fst = seenKeys native := by
  unfold _make_cached seenKeys
  simpa using foldl_cacheStep_keys native native.tagKeys []

theorem keyStep_nodup (native : NativeFile) (a : List String) (k : String)
    (h : a.Nodup) : (keyStep native a k).Nodup := by
  unfold keyStep
  cases native.getItem k with
  | ok v =>
    by_cases hm : k ∈ a
    · simpa [hm] using h
    · simp [hm, List.nodup_append, h]
  | error e => exact h

theorem foldl_keyStep_nodup (native : NativeFile) (ks : List String)
    (a : List String) (h : a.Nodup) :
    (ks.foldl (keyStep native) a).Nodup := by
  induction ks generalizing a with
  | nil => exact h
  | cons k ks ih => exact ih _ (keyStep_nodup native a k h)

theorem mem_keyStep_of_mem (native : NativeFile) (a : List String)
    (k j : String) (h : j ∈ a) : j ∈ keyStep native a k := by
  unfold keyStep
  cases native.getItem k with
  | ok v =>
    by_cases hm : k ∈ a
    · simpa [hm] using h
    · simp [hm, h]
  | error e => exact h

theorem mem_foldl_keyStep_of_mem (native : NativeFile) (ks : List String)
    (a : List String) (j : String) (h : j ∈ a) :
    j ∈ ks.foldl (keyStep native) a := by
  induction ks generalizing a with
  | nil => exact h
  | cons k ks ih => exact ih _ (mem_keyStep_of_mem native a k j h)

theorem mem_keyStep_self (native : NativeFile) (a : List String) (k : String)
    (v : Value) (hok : native.getItem k = Except.ok v) :
    k ∈ keyStep native a k := by
  unfold keyStep
  rw [hok]
  by_cases hm : k ∈ a
  · simp [hm]
  · simp [hm]

theorem mem_foldl_keyStep (native : NativeFile) (ks : List String)
    (a : List String) (k : String) (v : Value) (hk : k ∈ ks)
    (hok : native.getItem k = Except.ok v) :
    k ∈ ks.foldl (keyStep native) a := by
  induction ks generalizing a with
  | nil => cases hk
  | cons x xs ih =>
    rcases List.mem_cons.mp hk with h1 | h2
    · subst h1
      exact mem_foldl_keyStep_of_mem native xs _ k
        (mem_keyStep_self native a k v hok)
    · exact ih _ h2

theorem openVia_miss (parse : String → Except Err NativeFile) (s : PyState)
    (f : String) (h : alistGet s.cache f = none) :
    (openVia parse s f).2 = freshResult parse f := by
  unfold openVia freshResult
  rw [h]
  cases hp : parse f <;> rfl

/-! ### Behaviour of `batch_open` -/

theorem batch_open_memo (P : NativeParsers) (s : PyState) (i : Nat)
    (r : List (String × Except Err NativeFile)) (h1 : s.lastBatchArg = some i)
    (h2 : s.lastBatchResult = some r) :
    batch_open P s i = (s, r) := by
  unfold batch_open
  rw [h1, h2]
  simp

theorem batch_open_fresh_of_arg_ne (P : NativeParsers) (s : PyState) (i : Nat)
    (h : s.lastBatchArg ≠ some i) :
    batch_open P s i = batchFresh P s i := by
  unfold batch_open
  cases h1 : s.lastBatchArg with
  | none => cases s.lastBatchResult <;> rfl
  | some a =>
    cases s.lastBatchResult with
    | none => rfl
    | some r =>
      have h2 : ¬ a = i := fun hh => h (h1.trans (congrArg some hh))
      simp [h2]

theorem batch_open_fresh_of_no_result (P : NativeParsers) (s : PyState)
    (i : Nat) (h : s.lastBatchResult = none) :
    batch_open P s i = batchFresh P s i := by
  unfold batch_open
  rw [h]
  cases s.lastBatchArg <;> rfl

theorem batchFresh_snd (P : NativeParsers) (s : PyState) (i : Nat) :
    (batchFresh P s i).2 =
      (listContents s.lists i).map (fun p => (p, P.rust_file_open p false)) :=
  rfl

theorem map_fst_pairing {β : Type} (g : String → β) (l : List String) :
    (l.map (fun p => (p, g p))).map Prod.fst = l := by
  induction l with
  | nil => rfl
  | cons x xs ih => simp [ih]

theorem batchFresh_fst_map (P : NativeParsers) (s : PyState) (i : Nat) :
    (batchFresh P s i).2.map Prod.fst = listContents s.lists i := by
  rw [batchFresh_snd]
  exact map_fst_pairing _ _

/-! ### Claim theorems -/

/-- Claim C3 (confirmed): the per-path cache is shared by all format
constructors and keyed only by the filename: whenever `filename` is present
in the module cache, each of MP3, FLAC, OggVorbis, MP4 and File returns the
existing cached handle and leaves the state unchanged — for every native
parser bundle `P`, so no format's native parser is invoked — even when the
cached handle was produced by a different format's constructor. -/
theorem cache_shared_across_constructors (P : NativeParsers) (s : PyState)
    (f : String) (w : CachedFile) (easy : Bool)
    (h : alistGet s.cache f = some w) :
    MP3 P s f = (s, Except.ok w) ∧ FLAC P s f = (s, Except.ok w) ∧
    OggVorbis P s f = (s, Except.ok w) ∧ MP4 P s f = (s, Except.ok w) ∧
    File P s f easy = (s, Except.ok w) :=
  ⟨openVia_hit _ s f w h, openVia_hit _ s f w h, openVia_hit _ s f w h,
   openVia_hit _ s f w h, openVia_hit _ s f w h⟩

/-- Witness for C3: "b.flac" was cached by the FLAC constructor, and the MP3
constructor returns that very wrapper. -/
theorem cache_shared_across_constructors_witness :
    alistGet exSFlac.cache "b.flac" = some exWFlac ∧
    MP3 exParsers exSFlac "b.flac" = (exSFlac, Except.ok exWFlac) :=
  ⟨rfl,
   (cache_shared_across_constructors exParsers exSFlac "b.flac" exWFlac true
     rfl).1⟩

/-- Claim C6 (confirmed): opening the same path twice with the same
constructor, with no intervening save or clear_cache, over the same
underlying bytes (the same parser bundle `P`), gives the same result — in
particular handles with identical info and tag entries — and the same state,
for each of the five wrapper constructors. -/
theorem open_idempotent (P : NativeParsers) (s : PyState) (f : String)
    (easy : Bool) :
    MP3 P (MP3 P s f).1 f = MP3 P s f ∧
    FLAC P (FLAC P s f).1 f = FLAC P s f ∧
    OggVorbis P (OggVorbis P s f).1 f = OggVorbis P s f ∧
    MP4 P (MP4 P s f).1 f = MP4 P s f ∧
    File P (File P s f easy).1 f easy = File P s f easy :=
  ⟨openVia_idem _ s f, openVia_idem _ s f, openVia_idem _ s f,
   openVia_idem _ s f, openVia_idem _ s f⟩

/-- Claim C9 (confirmed): `clear_cache` empties the per-path cache and resets
both cells of the last-batch memo; the next call of any wrapper constructor
on any path therefore reaches the native parser (its result is exactly the
fresh parse's), and the next `batch_open` on any list object calls the
native batch on the list's current contents. -/
theorem clear_cache_resets (P : NativeParsers) (s : PyState) (f : String)
    (easy : Bool) (i : Nat) :
    (clear_cache s).cache = [] ∧
    (clear_cache s).lastBatchArg = none ∧
    (clear_cache s).lastBatchResult = none ∧
    (MP3 P (clear_cache s) f).2 = freshResult P.rustMP3 f ∧
    (FLAC P (clear_cache s) f).2 = freshResult P.rustFLAC f ∧
    (OggVorbis P (clear_cache s) f).2 = freshResult P.rustOggVorbis f ∧
    (MP4 P (clear_cache s) f).2 = freshResult P.rustMP4 f ∧
    (File P (clear_cache s) f easy).2 =
      freshResult (fun g => P.rust_file_open g easy) f ∧
    (batch_open P (clear_cache s) i).2 =
      P.rust_batch_open (listContents s.lists i) := by
  refine ⟨rfl, rfl, rfl, openVia_miss _ _ _ rfl, openVia_miss _ _ _ rfl,
    openVia_miss _ _ _ rfl, openVia_miss _ _ _ rfl, openVia_miss _ _ _ rfl, ?_⟩
  rw [batch_open_fresh_of_no_result P (clear_cache s) i rfl]
  rfl

/-- Claim C5 (confirmed): when the native construction for `f` raises — which
is only attempted when `f` misses the cache — each of the five constructors
propagates exactly that typed error and leaves the whole module state, in
particular the cache, unchanged; a later call for the same filename
re-attempts the parse (shown for MP3 with a possibly different disk state
`Q`: the retry's result is the fresh parse's). -/
theorem open_error_propagates (P Q : NativeParsers) (s : PyState) (f : String)
    (e : Err) (easy : Bool) (hc : alistGet s.cache f = none) :
    (P.rustMP3 f = Except.error e → MP3 P s f = (s, Except.error e)) ∧
    (P.rustFLAC f = Except.error e → FLAC P s f = (s, Except.error e)) ∧
    (P.rustOggVorbis f = Except.error e →
      OggVorbis P s f = (s, Except.error e)) ∧
    (P.rustMP4 f = Except.error e → MP4 P s f = (s, Except.error e)) ∧
    (P.rust_file_open f easy = Except.error e →
      File P s f easy = (s, Except.error e)) ∧
    (P.rustMP3 f = Except.error e →
      (MP3 Q (MP3 P s f).1 f).2 = freshResult Q.rustMP3 f) := by
  refine ⟨fun hp => openVia_miss_error _ s f e hc hp,
    fun hp => openVia_miss_error _ s f e hc hp,
    fun hp => openVia_miss_error _ s f e hc hp,
    fun hp => openVia_miss_error _ s f e hc hp,
    fun hp => openVia_miss_error _ s f e hc hp,
    fun hp => ?_⟩
  have h1 : MP3 P s f = (s, Except.error e) :=
    openVia_miss_error _ s f e hc hp
  rw [h1]
  exact openVia_miss _ _ _ hc

/-- Witness for C5: "x.ogg" is uncached, its native OggVorbis construction
raises "OggError", and the wrapper propagates exactly that error with the
state unchanged. -/
theorem open_error_propagates_witness :
    alistGet exInit.cache "x.ogg" = none ∧
    exParsers.rustOggVorbis "x.ogg" = Except.error "OggError" ∧
    OggVorbis exParsers exInit "x.ogg" = (exInit, Except.error "OggError") :=
  ⟨rfl, rfl,
   (open_error_propagates exParsers exParsers exInit "x.ogg" "OggError" true
     rfl).2.2.1 rfl⟩

/-- Counterexample to C7 as stated: the native handle `exBadNative` reports
key "TIT2" via keys(), but the wrapper built by `_make_cached` has no entry
for it — the `except Exception: pass` drops keys whose lookup raises. -/
theorem make_cached_drops_failing_key :
    "TIT2" ∈ exBadNative.tagKeys ∧
    exBadNative.getItem "TIT2" = Except.error "boom" ∧
    (_make_cached exBadNative "f.mp3").entries.map Prod.fst = [] := by
  refine ⟨?_, rfl, rfl⟩
  simp [exBadNative]

/-- Claim C7 (amended): every key the native handle reports via keys() whose
value lookup succeeds appears in the wrapper's key enumeration; a key whose
lookup raises is silently dropped. -/
theorem make_cached_keeps_ok_keys (native : NativeFile) (f k : String)
    (v : Value) (hk : k ∈ native.tagKeys)
    (hok : native.getItem k = Except.ok v) :
    k ∈ (_make_cached native f).entries.map Prod.fst := by
  rw [make_cached_keys]
  exact mem_foldl_keyStep native native.tagKeys [] k v hk hok

/-- Witness for C7 (amended): "TIT2" is reported by `exNative.keys()`, its
lookup succeeds, and it appears among the wrapper's dict keys. -/
theorem make_cached_keeps_ok_keys_witness :
    "TIT2" ∈ exNative.tagKeys ∧
    "TIT2" ∈ (_make_cached exNative "a.mp3").entries.map Prod.fst :=
  ⟨by simp [exNative],
   make_cached_keeps_ok_keys exNative "a.mp3" "TIT2" "Song"
     (by simp [exNative]) rfl⟩

/-- Counterexample to C8 as stated: for `exBadNative2` the wrapper's key
iteration order is ["BBB"], not the native keys() order ["AAA", "BBB"],
because the lookup of "AAA" raises. -/
theorem make_cached_key_order_cex :
    (_make_cached exBadNative2 "g.mp3").entries.map Prod.fst = ["BBB"] ∧
    exBadNative2.tagKeys = ["AAA", "BBB"] ∧
    (_make_cached exBadNative2 "g.mp3").entries.map Prod.fst ≠
      exBadNative2.tagKeys := by
  refine ⟨rfl, rfl, ?_⟩
  decide

/-- Claim C8 (amended): the wrapper's key iteration order lists, in the order
first observed, exactly the native keys() entries whose lookup succeeds
(`seenKeys`), and no key occurs twice in the wrapper's enumeration. -/
theorem make_cached_key_order (native : NativeFile) (f : String) :
    (_make_cached native f).entries.map Prod.fst = seenKeys native ∧
    ((_make_cached native f).entries.map Prod.fst).Nodup := by
  refine ⟨make_cached_keys native f, ?_⟩
  rw [make_cached_keys]
  exact foldl_keyStep_nodup native native.tagKeys [] List.nodup_nil

/-- Counterexample to C1 as stated: after list object 0 is mutated in place
from ["a.mp3"] to ["b.flac"], re-passing the same object to `batch_open`
returns the memoized result, which pairs path "a.mp3" — not one result per
path of the list's contents at the time of the call. -/
theorem batch_open_stale_cex :
    listContents exSMut.lists 0 = ["b.flac"] ∧
    (batch_open exParsers exSMut 0).2.map Prod.fst = ["a.mp3"] ∧
    (batch_open exParsers exSMut 0).2.map Prod.fst ≠
      listContents exSMut.lists 0 := by
  refine ⟨rfl, rfl, ?_⟩
  decide

/-- Claim C1 (amended): `batch_open` returns exactly one result per path of
the list's current contents, in input order, each pairing the path with the
dispatcher's handle-or-error — provided the argument is not the identical
list object memoized from the previous call; re-passing the identical object
while a memo is present returns the memoized result unchanged, even if the
object's contents have changed. -/
theorem batch_open_per_path (P : NativeParsers) (s : PyState) (i : Nat) :
    ((s.lastBatchArg ≠ some i ∨ s.lastBatchResult = none) →
      (batch_open P s i).2 =
        (listContents s.lists i).map (fun p => (p, P.rust_file_open p false)) ∧
      (batch_open P s i).2.map Prod.fst = listContents s.lists i) ∧
    (∀ r, s.lastBatchArg = some i → s.lastBatchResult = some r →
      batch_open P s i = (s, r)) := by
  constructor
  · intro h
    have hb : batch_open P s i = batchFresh P s i := by
      rcases h with h | h
      · exact batch_open_fresh_of_arg_ne P s i h
      · exact batch_open_fresh_of_no_result P s i h
    rw [hb]
    exact ⟨batchFresh_snd P s i, batchFresh_fst_map P s i⟩
  · intro r h1 h2
    exact batch_open_memo P s i r h1 h2

/-- Witness for C1 (amended): from the fresh state (no memo), batch_open on
list object 0 = ["a.mp3"] returns one result per path in order. -/
theorem batch_open_per_path_witness :
    (exInit.lastBatchArg ≠ some 0 ∨ exInit.lastBatchResult = none) ∧
    (batch_open exParsers exInit 0).2 =
      (listContents exInit.lists 0).map
        (fun p => (p, exParsers.rust_file_open p false)) :=
  ⟨Or.inr rfl, ((batch_open_per_path exParsers exInit 0).1 (Or.inr rfl)).1⟩

/-- Counterexample to C2 as stated: with the easy=False handle for "a.mp3"
in the cache, File("a.mp3", easy=True) returns that cached handle, whose
keys are the native ones (["TIT2"]), not the normalized easy keys (["title"])
that wrapping the native easy handle would give. -/
theorem File_easy_ignored_when_cached_cex :
    keysOfResult (File exParsers exSFile "a.mp3" true).2 = ["TIT2"] ∧
    exParsers.rust_file_open "a.mp3" true = Except.ok exEasyNative ∧
    keysOfResult (Except.ok (_make_cached exEasyNative "a.mp3")) = ["title"] ∧
    keysOfResult (File exParsers exSFile "a.mp3" true).2 ≠
      keysOfResult (Except.ok (_make_cached exEasyNative "a.mp3")) := by
  refine ⟨rfl, rfl, rfl, ?_⟩
  decide

/-- Claim C2 (amended): File(path, easy=True) returns the wrapper of the
native easy handle — whose tag map, per the spec, uses normalized keys —
only when the path is absent from the module cache; when an entry is present
(e.g. from a previous easy=False open), the cached handle is returned and
`easy` is ignored. -/
theorem File_easy_cache_behaviour (P : NativeParsers) (s : PyState)
    (f : String) :
    (∀ n, alistGet s.cache f = none → P.rust_file_open f true = Except.ok n →
      File P s f true =
        ({ s with cache := dictInsert s.cache f (_make_cached n f) },
          Except.ok (_make_cached n f))) ∧
    (∀ w, alistGet s.cache f = some w → File P s f true = (s, Except.ok w)) := by
  constructor
  · intro n h hn
    exact openVia_miss_ok _ s f n h hn
  · intro w h
    exact openVia_hit _ s f w h

/-- Witness for C2 (amended): from the fresh state, File("a.mp3", easy=True)
returns the wrapper of the native easy handle. -/
theorem File_easy_cache_behaviour_witness :
    alistGet exInit.cache "a.mp3" = none ∧
    File exParsers exInit "a.mp3" true =
      ({ exInit with
          cache := dictInsert exInit.cache "a.mp3"
            (_make_cached exEasyNative "a.mp3") },
        Except.ok (_make_cached exEasyNative "a.mp3")) :=
  ⟨rfl,
   (File_easy_cache_behaviour exParsers exInit "a.mp3").1 exEasyNative rfl rfl⟩

/-- Counterexample to C4 as stated: after `save` the per-path cache entry for
"a.mp3" is gone, but the last-batch memo is untouched; re-passing the same
list object to `batch_open` — with parser bundle `exParsers2` modelling the
disk state after the save rewrote the file — returns the memoized pre-save
result (info "mp3info"), not a fresh parse (info "newinfo"). -/
theorem save_batch_memo_cex :
    alistGet exS3.cache "a.mp3" = none ∧
    resultInfos (batch_open exParsers2 exS3 0).2 = ["mp3info"] ∧
    resultInfos (exParsers2.rust_batch_open (listContents exS3.lists 0)) =
      ["newinfo"] ∧
    resultInfos (batch_open exParsers2 exS3 0).2 ≠
      resultInfos (exParsers2.rust_batch_open (listContents exS3.lists 0)) := by
  refine ⟨rfl, rfl, rfl, ?_⟩
  decide

/-- Claim C4 (amended): after `w.save(...)` succeeds, the per-path cache
entry for `w.filename` is removed and entries for every other filename are
unchanged, so every subsequent per-format open of that path re-parses the
file (shown for MP3 and File: the result is the fresh parse's); but the
last-batch memo is not invalidated: both `_last_batch` cells are untouched,
and `batch_open` re-passed the memoized list object still returns the
pre-save result. -/
theorem save_invalidates_path_cache (P : NativeParsers) (s : PyState)
    (w : CachedFile) (hnd : (s.cache.map Prod.fst).Nodup) :
    alistGet (save s w).cache w.filename = none ∧
    (∀ g, g ≠ w.filename →
      alistGet (save s w).cache g = alistGet s.cache g) ∧
    (MP3 P (save s w) w.filename).2 = freshResult P.rustMP3 w.filename ∧
    (File P (save s w) w.filename false).2 =
      freshResult (fun g => P.rust_file_open g false) w.filename ∧
    (save s w).lastBatchArg = s.lastBatchArg ∧
    (save s w).lastBatchResult = s.lastBatchResult ∧
    (∀ i r, s.lastBatchArg = some i → s.lastBatchResult = some r →
      batch_open P (save s w) i = (save s w, r)) := by
  have h0 : alistGet (save s w).cache w.filename = none :=
    alistGet_alistRemove_self s.cache w.filename hnd
  refine ⟨h0, ?_, openVia_miss _ _ _ h0, openVia_miss _ _ _ h0, rfl, rfl, ?_⟩
  · intro g hg
    exact alistGet_alistRemove_ne s.cache w.filename g hg
  · intro i r h1 h2
    exact batch_open_memo P (save s w) i r h1 h2

/-- Witness for C4 (amended): in the reachable state `exS2` (open, then
batch_open), saving the cached wrapper for "a.mp3" removes its cache entry
and leaves the last-batch memo in place. -/
theorem save_invalidates_path_cache_witness :
    (exS2.cache.map Prod.fst).Nodup ∧
    alistGet (save exS2 exW1).cache "a.mp3" = none ∧
    (save exS2 exW1).lastBatchResult = exS2.lastBatchResult :=
  ⟨by decide,
   (save_invalidates_path_cache exParsers exS2 exW1 (by decide)).1,
   (save_invalidates_path_cache exParsers exS2 exW1 (by decide)).2.2.2.2.2.1⟩

end MutagenRs
